import Mathlib

/-!
Verification of the MongoDB change-stream Benthos input plugin
(src/lib/plugin.go, package mongodb_stream_benthos).

The source is shallowly embedded: `map[string]interface{}` values become an
inductive `Value`, raw BSON records become association lists, the delivery
channel becomes an explicit FIFO list of events, and the background pump
loops (`takeSnapshot`, `iterateCursor`, `iterateChangeStream`) become
functions computing the sequence of events pushed onto the channel.
Connect/Close/Read side effects on driver handles are modelled as explicit
state with outcome values, with Go panics represented as a distinct outcome
constructor.
-/

namespace MongoStream

/-- A dynamically typed value, modelling Go `interface{}` holding a value
decoded from BSON (`bson.M` entries). `vdoc` models a nested
`map[string]interface{}` as an ordered association list, `varr` a slice.
`vdoubleNonFinite` models a `float64` NaN or infinity — a value BSON can
deliver but `encoding/json` refuses to marshal. -/
inductive Value where
  | vnull : Value
  | vbool : Bool → Value
  | vint : Int → Value
  | vstr : String → Value
  | vdoubleNonFinite : Value
  | vdoc : List (String × Value) → Value
  | varr : List Value → Value

/-- A raw record delivered by the driver: `bson.M`, i.e.
`map[string]interface{}`, as an ordered association list. -/
abbrev RawRecord := List (String × Value)

/-- Go comma-ok map indexing: `v, ok := data[k]` — `some v` when present. -/
def mapGet (data : RawRecord) (k : String) : Option Value :=
  match data with
  | [] => none
  | (k2, v) :: rest => if k2 = k then some v else mapGet rest k

/-- Go plain map indexing `data[k]`: the nil interface (here `vnull`) when
the key is absent. -/
def mapGetD (data : RawRecord) (k : String) : Value :=
  (mapGet data k).getD Value.vnull

/-- The static configuration part of the `mongoStreamInput` struct
(plugin.go lines 21-30): `database`, `collection`, `stream_snapshot`.
The runtime handles of the struct (`client`, `stream` channel, `context`,
`cancelFunc`) are modelled separately as explicit state. -/
structure MongoStreamInput where
  database : String
  collection : String
  streamSnapshot : Bool

/-- The event map built by `processMessage`: its four fixed keys become
fields. `database` and `collection` are always set from config strings;
`action` and `data` hold arbitrary values taken from the raw record. -/
structure Event where
  action : Value
  database : String
  collection : String
  data : Value

/-- The Go `switch operation { case "delete": }` comparison: an
`interface{}` equals the string literal `"delete"` exactly when it holds
that string. -/
def isDeleteOp : Value → Bool
  | Value.vstr s => s = "delete"
  | _ => false

/-- plugin.go lines 166-190, `processMessage`: builds the event pushed onto
the channel. With an `operationType` field present the action is that value
verbatim; `"delete"` selects `documentKey`, anything else `fullDocument`.
Without `operationType` the record is a snapshot document: action
`"insert"`, payload the record itself. (The final `m.stream <- event` push
is modelled by the pump functions appending to the channel list.) -/
def processMessage (m : MongoStreamInput) (data : RawRecord) : Event :=
  match mapGet data "operationType" with
  | some operation =>
      if isDeleteOp operation then
        { action := operation, database := m.database,
          collection := m.collection, data := mapGetD data "documentKey" }
      else
        { action := operation, database := m.database,
          collection := m.collection, data := mapGetD data "fullDocument" }
  | none =>
      { action := Value.vstr "insert", database := m.database,
        collection := m.collection, data := Value.vdoc data }

/-- plugin.go lines 134-150, `iterateCursor`: drains the snapshot cursor,
processing each decoded document in cursor order. `docs` is the sequence
the cursor yields; `ch` the channel contents so far; each processed event
is appended (pushed) in order. -/
def iterateCursor (m : MongoStreamInput) (docs : List RawRecord)
    (ch : List Event) : List Event :=
  match docs with
  | [] => ch
  | d :: rest => iterateCursor m rest (ch ++ [processMessage m d])

/-- plugin.go lines 152-164, `iterateChangeStream`: drains the change
stream, processing each decoded envelope in stream order. -/
def iterateChangeStream (m : MongoStreamInput) (evs : List RawRecord)
    (ch : List Event) : List Event :=
  match evs with
  | [] => ch
  | e :: rest => iterateChangeStream m rest (ch ++ [processMessage m e])

/-- plugin.go lines 116-132, `takeSnapshot`: runs `Find` and drains the
cursor to exhaustion via `iterateCursor`, and only then opens the change
stream (`Watch`) and drains it via `iterateChangeStream`. `docs` are the
snapshot documents, `evs` the subsequent tail envelopes. -/
def takeSnapshot (m : MongoStreamInput) (docs evs : List RawRecord)
    (ch : List Event) : List Event :=
  iterateChangeStream m evs (iterateCursor m docs ch)

/-- plugin.go lines 100-111, the pump dispatch inside `Connect`: with
`stream_snapshot` true it spawns `takeSnapshot`; otherwise it opens the
watch immediately and spawns `iterateChangeStream` only — no `Find`, so no
collection scan and the snapshot documents `docs` never enter the channel. -/
def connectPumpEvents (m : MongoStreamInput) (docs evs : List RawRecord) :
    List Event :=
  if m.streamSnapshot then takeSnapshot m docs evs []
  else iterateChangeStream m evs []

mutual

/-- Model of `encoding/json.Marshal` on a dynamic value: `none` when Go
returns an `UnsupportedValueError` (a non-finite `float64` anywhere inside
the value), otherwise the JSON text. -/
def jsonMarshal : Value → Option String
  | Value.vnull => some "null"
  | Value.vbool b => some (cond b "true" "false")
  | Value.vint n => some (toString n)
  | Value.vstr s => some ("\"" ++ s ++ "\"")
  | Value.vdoubleNonFinite => none
  | Value.vdoc fields => (jsonMarshalFields fields).map
      (fun s => "\x7b" ++ s ++ "\x7d")
  | Value.varr elems => (jsonMarshalElems elems).map
      (fun s => "[" ++ s ++ "]")

/-- Marshals the comma-separated members of a JSON object. -/
def jsonMarshalFields : List (String × Value) → Option String
  | [] => some ""
  | [(k, v)] => (jsonMarshal v).map (fun s => "\"" ++ k ++ "\":" ++ s)
  | (k, v) :: rest => do
      let s ← jsonMarshal v
      let t ← jsonMarshalFields rest
      pure ("\"" ++ k ++ "\":" ++ s ++ "," ++ t)

/-- Marshals the comma-separated elements of a JSON array. -/
def jsonMarshalElems : List Value → Option String
  | [] => some ""
  | [v] => jsonMarshal v
  | v :: rest => do
      let s ← jsonMarshal v
      let t ← jsonMarshalElems rest
      pure (s ++ "," ++ t)

end

/-- The `service.Message` built by `Read`: a byte body (here the JSON text)
plus the metadata set by the three `MetaSet` calls, in call order. -/
structure Message where
  body : String
  meta : List (String × String)

/-- The observable outcome of one `Read` call once an event has been taken
from the channel: `ok msg err` models `return createdMessage, ack, err`
(the code always returns `err = none` and an ack closure that returns nil);
`panicked` models a failed `.(string)` type assertion aborting the call. -/
inductive ReadResult where
  | ok : Message → Option String → ReadResult
  | panicked : ReadResult

/-- plugin.go lines 201-211, the body of `Read` after `<-m.stream` yields
`snapshotMessage`: marshal the payload discarding the error
(`messageBodyEncoded, _ := json.Marshal(...)`, a failed marshal leaves the
zero-value nil body), then set metadata `table`, `schema`, `event` with
unchecked string assertions. `database` and `collection` are strings by
construction of `processMessage`; the `action` assertion panics whenever
the action value is not a string. -/
def readOne (e : Event) : ReadResult :=
  let body := (jsonMarshal e.data).getD ""
  match e.action with
  | Value.vstr a =>
      ReadResult.ok
        { body := body,
          meta := [("table", e.collection), ("schema", e.database),
                   ("event", a)] }
        none
  | _ => ReadResult.panicked

/-- plugin.go lines 201-211, `Read`: blocks on `<-m.stream`. On the FIFO
channel model, an empty channel means the call stays suspended (`none`);
otherwise the head event is consumed and processed by `readOne`. -/
def Read (ch : List Event) : Option (ReadResult × List Event) :=
  match ch with
  | [] => none
  | e :: rest => some (readOne e, rest)

/-- Repeated `Read` calls consuming the channel until it is empty: the
sequence of results a consumer obtains, in channel order. -/
def readAll : List Event → List ReadResult
  | [] => []
  | e :: rest =>
      match Read (e :: rest) with
      | some rp => rp.fst :: readAll rest
      | none => []

/-- The outcome of `Connect` (plugin.go lines 87-114): `ret err started`
models a normal return of `err` with `started` recording whether a pump
goroutine was spawned; `panicked e` models `panic(err)`. -/
inductive ConnectOutcome where
  | ret : Option String → Bool → ConnectOutcome
  | panicked : String → ConnectOutcome
deriving DecidableEq

/-- plugin.go lines 87-114, `Connect`: `mongo.Connect` failure panics
(line 93); in tail-only mode a `Watch` failure panics (line 107); otherwise
a single pump goroutine is spawned and `Connect` returns nil. `connectErr`
is the error from `mongo.Connect`, `watchErr` the error from the tail-only
`Watch` call. -/
def Connect (connectErr watchErr : Option String) (streamSnapshot : Bool) :
    ConnectOutcome :=
  match connectErr with
  | some e => ConnectOutcome.panicked e
  | none =>
      if streamSnapshot then ConnectOutcome.ret none true
      else
        match watchErr with
        | some e => ConnectOutcome.panicked e
        | none => ConnectOutcome.ret none true

/-- The runtime handles of `mongoStreamInput` that `Close` touches:
whether `m.client` is non-nil (it is set by every `Connect` call, and
`Close` never resets it), whether `m.cancelFunc` has been invoked, and how
many times `client.Disconnect` has been called. -/
structure CloseState where
  clientNonNil : Bool
  cancelCalled : Bool
  disconnectCalls : Nat
deriving DecidableEq

/-- plugin.go lines 192-199, `Close`: with a non-nil client it returns
`client.Disconnect(...)` directly — `discErr` is Disconnect's result — so
the `m.cancelFunc()` statement on line 197 is never reached on that path
and the client field is left non-nil. Only with a nil client does the call
reach `m.cancelFunc()`. Returns the new state and the error value `Close`
returns. -/
def Close (s : CloseState) (discErr : Option String) :
    CloseState × Option String :=
  if s.clientNonNil then
    ({ s with disconnectCalls := s.disconnectCalls + 1 }, discErr)
  else
    ({ s with cancelCalled := true }, none)

/-- The `CloseState` right after a successful `Connect`: `m.client` set
(line 90), no cancellation delivered, no disconnect performed. -/
def postConnectState : CloseState :=
  { clientNonNil := true, cancelCalled := false, disconnectCalls := 0 }

/-- Draining the cursor pushes exactly the processed documents, in cursor
order, after whatever the channel already held. -/
theorem iterateCursor_eq (m : MongoStreamInput) (docs : List RawRecord)
    (ch : List Event) :
    iterateCursor m docs ch = ch ++ docs.map (processMessage m) := by
  induction docs generalizing ch with
  | nil => simp [iterateCursor]
  | cons d rest ih => simp [iterateCursor, ih]

/-- Draining the change stream pushes exactly the processed envelopes, in
stream order, after whatever the channel already held. -/
theorem iterateChangeStream_eq (m : MongoStreamInput) (evs : List RawRecord)
    (ch : List Event) :
    iterateChangeStream m evs ch = ch ++ evs.map (processMessage m) := by
  induction evs generalizing ch with
  | nil => simp [iterateChangeStream]
  | cons e rest ih => simp [iterateChangeStream, ih]

/-- Repeated `Read` calls yield one result per channel event, in FIFO
order. -/
theorem readAll_eq (ch : List Event) : readAll ch = ch.map readOne := by
  induction ch with
  | nil => rfl
  | cons e rest ih => simp [readAll, Read, ih]

/-- Claim C1: a raw record lacking `operationType` is normalized with action
`"insert"` and payload the raw record itself; a record with `operationType`
equal to `"delete"` gets payload `documentKey` (never `fullDocument`); any
other `operationType` value passes through verbatim as the action, with
payload `fullDocument`. -/
theorem processMessage_normalization (m : MongoStreamInput)
    (data : RawRecord) :
    (mapGet data "operationType" = none →
      (processMessage m data).action = Value.vstr "insert" ∧
      (processMessage m data).data = Value.vdoc data) ∧
    (mapGet data "operationType" = some (Value.vstr "delete") →
      (processMessage m data).action = Value.vstr "delete" ∧
      (processMessage m data).data = mapGetD data "documentKey") ∧
    (∀ op, mapGet data "operationType" = some op →
      op ≠ Value.vstr "delete" →
      (processMessage m data).action = op ∧
      (processMessage m data).data = mapGetD data "fullDocument") := by
  refine ⟨fun h => ?_, fun h => ?_, fun op h hne => ?_⟩
  · simp [processMessage, h]
  · simp [processMessage, h, isDeleteOp]
  · have hd : isDeleteOp op = false := by
      cases op with
      | vstr s =>
          simp only [isDeleteOp, decide_eq_false_iff_not]
          intro hs
          exact hne (by rw [hs])
      | vnull => rfl
      | vbool b => rfl
      | vint n => rfl
      | vdoubleNonFinite => rfl
      | vdoc fs => rfl
      | varr es => rfl
    simp [processMessage, h, hd]

/-- Witness for C1: the three scenario records of the spec, evaluated
concretely. -/
theorem processMessage_normalization_witness :
    ((processMessage ⟨"db", "c", true⟩
        [("_id", Value.vint 5), ("name", Value.vstr "a")]).action =
          Value.vstr "insert" ∧
     (processMessage ⟨"db", "c", true⟩
        [("_id", Value.vint 5), ("name", Value.vstr "a")]).data =
          Value.vdoc [("_id", Value.vint 5), ("name", Value.vstr "a")]) ∧
    ((processMessage ⟨"db", "c", true⟩
        [("operationType", Value.vstr "delete"),
         ("documentKey", Value.vdoc [("_id", Value.vint 1)])]).action =
          Value.vstr "delete" ∧
     (processMessage ⟨"db", "c", true⟩
        [("operationType", Value.vstr "delete"),
         ("documentKey", Value.vdoc [("_id", Value.vint 1)])]).data =
          mapGetD [("operationType", Value.vstr "delete"),
                   ("documentKey", Value.vdoc [("_id", Value.vint 1)])]
                  "documentKey") ∧
    ((processMessage ⟨"db", "c", true⟩
        [("operationType", Value.vstr "update"),
         ("fullDocument", Value.vdoc [("x", Value.vint 2)])]).action =
          Value.vstr "update" ∧
     (processMessage ⟨"db", "c", true⟩
        [("operationType", Value.vstr "update"),
         ("fullDocument", Value.vdoc [("x", Value.vint 2)])]).data =
          mapGetD [("operationType", Value.vstr "update"),
                   ("fullDocument", Value.vdoc [("x", Value.vint 2)])]
                  "fullDocument") :=
  ⟨(processMessage_normalization _ _).1 rfl,
   (processMessage_normalization _ _).2.1 rfl,
   (processMessage_normalization _ _).2.2 (Value.vstr "update") rfl
     (by intro h; injection h with h2; exact absurd h2 (by decide))⟩

/-- Claim C2: in snapshot-then-tail mode the pump pushes every normalized
snapshot document before any normalized tail envelope, and the `Read`-driven
consumption of the channel yields exactly those events, one per call, in
that order. -/
theorem snapshot_then_tail_order (m : MongoStreamInput)
    (ds es : List RawRecord) :
    takeSnapshot m ds es [] =
      ds.map (processMessage m) ++ es.map (processMessage m) ∧
    readAll (takeSnapshot m ds es []) =
      (ds.map (processMessage m) ++ es.map (processMessage m)).map readOne := by
  have h1 : takeSnapshot m ds es [] =
      ds.map (processMessage m) ++ es.map (processMessage m) := by
    simp [takeSnapshot, iterateCursor_eq, iterateChangeStream_eq]
  exact ⟨h1, by rw [h1, readAll_eq]⟩

/-- Claim C6: every produced event carries the connector's configured
database and collection names, and its payload is only selected from the
raw record — it is the record itself, its `documentKey` field, or its
`fullDocument` field. -/
theorem event_fields_invariant (m : MongoStreamInput) (data : RawRecord) :
    (processMessage m data).database = m.database ∧
    (processMessage m data).collection = m.collection ∧
    ((processMessage m data).data = Value.vdoc data ∨
     (processMessage m data).data = mapGetD data "documentKey" ∨
     (processMessage m data).data = mapGetD data "fullDocument") := by
  unfold processMessage
  cases mapGet data "operationType" with
  | none => exact ⟨rfl, rfl, Or.inl rfl⟩
  | some op =>
      cases hop : isDeleteOp op with
      | true => simp [hop]
      | false => simp [hop]

/-- Claim C7: in tail-only mode the pump output is exactly the normalized
change-stream envelopes — independent of any snapshot documents, which are
never scanned nor delivered. -/
theorem tail_only_no_snapshot (m : MongoStreamInput)
    (ds es : List RawRecord) (h : m.streamSnapshot = false) :
    connectPumpEvents m ds es = es.map (processMessage m) := by
  simp [connectPumpEvents, h, iterateChangeStream_eq]

/-- Witness for C7: a tail-only configuration with one snapshot document
present in the collection and one tail envelope. -/
theorem tail_only_no_snapshot_witness :
    connectPumpEvents ⟨"db", "c", false⟩ [[("a", Value.vint 1)]]
        [[("operationType", Value.vstr "update"),
          ("fullDocument", Value.vdoc [("a", Value.vint 2)])]] =
      List.map (processMessage ⟨"db", "c", false⟩)
        [[("operationType", Value.vstr "update"),
          ("fullDocument", Value.vdoc [("a", Value.vint 2)])]] :=
  tail_only_no_snapshot _ _ _ rfl

/-- Claim C3, evaluated on the code: calling `Close` in the state left by a
successful `Connect` (non-nil client) releases the connection but returns
from the `Disconnect` branch before ever reaching `m.cancelFunc()`, so the
cancellation signal is never delivered to the background pump; and `Read`
on an empty channel (which is never closed by anything) simply stays
suspended, so no terminal signal is ever produced for it. -/
theorem close_skips_cancel :
    (Close postConnectState none).fst.cancelCalled = false ∧
    (Close postConnectState none).fst.disconnectCalls = 1 ∧
    (Close postConnectState none).fst.clientNonNil = true ∧
    Read [] = none := by
  refine ⟨rfl, rfl, rfl, rfl⟩

/-- Counterexample for C4: a connection failure is not returned to the
caller as a result value — `Connect` panics with it instead. -/
theorem connect_error_not_returned :
    Connect (some "connection refused") none false =
      ConnectOutcome.panicked "connection refused" ∧
    Connect (some "connection refused") none false ≠
      ConnectOutcome.ret (some "connection refused") false := by
  decide

/-- Claim C4 amended: every connection-establishment failure (a
`mongo.Connect` error, or a `Watch` error in tail-only mode) makes
`Connect` panic with that error rather than return it as a result value;
the error is carried in the panic (never swallowed) and `Connect` never
reaches its normal return, so the connector never starts flowing events. -/
theorem connect_failure_panics (connectErr watchErr : Option String)
    (streamSnapshot : Bool) (e : String)
    (h : connectErr = some e ∨
         (connectErr = none ∧ watchErr = some e ∧ streamSnapshot = false)) :
    Connect connectErr watchErr streamSnapshot =
      ConnectOutcome.panicked e ∧
    Connect connectErr watchErr streamSnapshot ≠
      ConnectOutcome.ret none true := by
  rcases h with h | ⟨h1, h2, h3⟩
  · subst h
    exact ⟨rfl, by simp [Connect]⟩
  · subst h1; subst h2; subst h3
    exact ⟨rfl, by simp [Connect]⟩

/-- Witness for C4 amended: a failing URI in snapshot mode. -/
theorem connect_failure_panics_witness :
    Connect (some "bad uri") none true = ConnectOutcome.panicked "bad uri" ∧
    Connect (some "bad uri") none true ≠ ConnectOutcome.ret none true :=
  connect_failure_panics (some "bad uri") none true "bad uri" (Or.inl rfl)

/-- Counterexample for C5: after the first `Close` in the post-`Connect`
state, a second `Close` calls `client.Disconnect` again — two disconnect
calls, a duplicate resource release, where idempotence demands one. -/
theorem close_double_disconnect :
    (Close (Close postConnectState none).fst none).fst.disconnectCalls = 2 ∧
    (Close postConnectState none).fst.disconnectCalls = 1 := by
  decide

/-- Claim C5 amended: `Close` is not idempotent — it never clears the
client field, so whenever the client is non-nil (always, after a successful
connect) every call returns `client.Disconnect`'s result and a second call
performs a second, duplicate disconnect. -/
theorem close_repeats_disconnect (s : CloseState) (d1 d2 : Option String)
    (h : s.clientNonNil = true) :
    (Close s d1).snd = d1 ∧
    (Close s d1).fst.clientNonNil = true ∧
    (Close (Close s d1).fst d2).fst.disconnectCalls =
      s.disconnectCalls + 2 := by
  simp [Close, h]

/-- Witness for C5 amended: two closes after a successful connect. -/
theorem close_repeats_disconnect_witness :
    (Close postConnectState none).snd = none ∧
    (Close postConnectState none).fst.clientNonNil = true ∧
    (Close (Close postConnectState none).fst none).fst.disconnectCalls =
      postConnectState.disconnectCalls + 2 :=
  close_repeats_disconnect postConnectState none none rfl

/-- Counterexample for C8: when the dequeued event's action is not a string
(here produced by a raw envelope with a numeric `operationType`, which
`processMessage` passes through verbatim), `Read` panics in the `.(string)`
type assertion instead of returning a serialized event. -/
theorem read_nonstring_action_no_message :
    (processMessage ⟨"db", "c", false⟩
       [("operationType", Value.vint 7)]).action = Value.vint 7 ∧
    Read [processMessage ⟨"db", "c", false⟩
       [("operationType", Value.vint 7)]] =
      some (ReadResult.panicked, []) := by
  refine ⟨rfl, rfl⟩

/-- Claim C8 amended: every `Read` call whose dequeued head event carries a
string action returns exactly one event, in FIFO channel order, serialized
as a body equal to the JSON encoding of the payload together with exactly
three out-of-band attributes — `table` (the collection name), `schema` (the
database name) and `event` (the action string) — and a nil error; when the
action is not a string the call panics in the type assertion instead. -/
theorem read_delivers_one_message (e : Event) (rest : List Event)
    (a : String) (h : e.action = Value.vstr a) :
    Read (e :: rest) =
      some (ReadResult.ok
        { body := (jsonMarshal e.data).getD "",
          meta := [("table", e.collection), ("schema", e.database),
                   ("event", a)] }
        none, rest) := by
  simp [Read, readOne, h]

/-- Witness for C8 amended: a concrete insert event on the channel. -/
theorem read_delivers_one_message_witness :
    Read [{ action := Value.vstr "insert", database := "db",
            collection := "c", data := Value.vdoc [("x", Value.vint 1)] }] =
      some (ReadResult.ok
        { body := (jsonMarshal (Value.vdoc [("x", Value.vint 1)])).getD "",
          meta := [("table", "c"), ("schema", "db"), ("event", "insert")] }
        none, []) :=
  read_delivers_one_message
    { action := Value.vstr "insert", database := "db", collection := "c",
      data := Value.vdoc [("x", Value.vint 1)] } [] "insert" rfl

/-- Claim C9: the payload of a decoded record can hold a non-finite double,
which `json.Marshal` refuses to encode; `Read` discards that error, returns
a message whose body is the zero value of the failed serialization, and
signals no error to the caller. -/
theorem read_ignores_marshal_error :
    jsonMarshal (Value.vdoc [("v", Value.vdoubleNonFinite)]) = none ∧
    Read [{ action := Value.vstr "insert", database := "db",
            collection := "c",
            data := Value.vdoc [("v", Value.vdoubleNonFinite)] }] =
      some (ReadResult.ok
        { body := "",
          meta := [("table", "c"), ("schema", "db"), ("event", "insert")] }
        none, []) := by
  refine ⟨rfl, rfl⟩

/-- Claim C10: a change-stream record whose `operationType` is not a string
flows through `processMessage` verbatim into the event's action, and `Read`
then panics in the unchecked `.(string)` assertion instead of returning an
event or an error. -/
theorem read_panics_on_nonstring_operation :
    (processMessage ⟨"db", "c", true⟩
       [("operationType", Value.vint 42),
        ("fullDocument", Value.vdoc [("x", Value.vint 1)])]).action =
      Value.vint 42 ∧
    Read [processMessage ⟨"db", "c", true⟩
       [("operationType", Value.vint 42),
        ("fullDocument", Value.vdoc [("x", Value.vint 1)])]] =
      some (ReadResult.panicked, []) := by
  refine ⟨rfl, rfl⟩

end MongoStream
